import Mathlib

/-!
Shallow embedding of the streaming session controller in
`src/sandbox/components/widgets/AudioWidgets.tsx` (the `AudioWidgets`
component): socket lifecycle handlers, the capture loop body, the
single-in-flight send gate and teardown, together with ghost
instrumentation (logs of status emissions, delivered batches, chunk
arrivals, connect attempts, close calls and an in-flight counter) used
to state the verified properties.

The component's reactive presentation (chart rendering, timeline
widgets) is out of scope; the sink is modelled by the ghost log
`sinkBatches` recording each prediction list handed to
`setPredictions`/`onTimeline`.
-/

namespace SpeechReview

/-- Audio blob contents, as a byte list (`Blob` in the source). -/
abbrev Blob := List Nat

/-- Opaque prediction payload (`AudioPrediction`): the controller forwards
predictions verbatim and only ever inspects the list's length, so the
element type is kept abstract as a string placeholder. -/
abbrev AudioPrediction := String

/-- WebSocket ready states, named as the `WebSocket` constants the source
compares against (`socket.readyState === WebSocket.OPEN`). -/
inductive ReadyState
  | CONNECTING
  | OPEN
  | CLOSING
  | CLOSED
deriving DecidableEq, Repr

/-- Parsed shape of `response[modelName]` in `socketOnMessage`:
`predictions` and `warning` are read with optional chaining and defaulted
(`|| []`, `|| ""`); `warning` is computed but never used by the source. -/
structure ModelData where
  predictions : Option (List AudioPrediction)
  warning : Option String
deriving DecidableEq, Repr

/-- Parsed shape of an inbound message as `socketOnMessage` consumes it:
`modelData` stands for the `response[modelName]` lookup and `error` for the
top-level `response.error` field (`none` when the field is absent). -/
structure Msg where
  modelData : Option ModelData
  error : Option String
deriving DecidableEq, Repr

/-- Raw inbound payload as seen by `socketOnMessage` before `JSON.parse`:
either it parses to a `Msg`, or `JSON.parse` (or the subsequent
`response[modelName]` property access, e.g. on a payload `"null"`) throws.
The source wraps the parse in no try/catch. -/
inductive Inbound
  | malformed
  | parsed (m : Msg)
deriving DecidableEq, Repr

/-- A drained batch awaiting its asynchronous `blobToBase64` encoding:
`sendRequest` captures `combinedBlob` (the queue contents) and the local
`socket` (identified here by the generation counter `gen`) before the
`await`; `socket.send` afterwards goes to that captured socket. -/
structure PendingSend where
  gen : Nat
  chunks : List Blob
deriving DecidableEq, Repr

/-- Concatenation performed by `new Blob(audioBufferRef.current)`: the
combined payload is the chunks' bytes in arrival order. -/
def combinedBlob (chunks : List Blob) : Blob := chunks.flatten

/-- Byte contents of a pending send's combined blob. -/
def PendingSend.data (p : PendingSend) : Blob := combinedBlob p.chunks

/-- Per-session configuration fixed at construction (the component props
plus the ambient auth environment). -/
structure Config where
  modelName : String
  environment : String
  recordingLengthMs : Nat
  streamWindowLengthMs : Nat
deriving DecidableEq, Repr

/-- The mutable state of one `AudioWidgets` session.

Program state (mirroring the refs of the source):
`socket` (`socketRef`, `none` for `null`, otherwise the socket's ready
state), `recorder` (`recorderRef` non-null), `audioBuffer`
(`audioBufferRef`), `mount` (`mountRef`), `numReconnects`, `serverReady`
(`serverReadyRef`), `status` (the `status` React state).

Ghost instrumentation (not program variables, pure observation):
`socketGen` numbers successive `new WebSocket` objects so a pending send
can remember which socket it captured; `statusLog` records every
`setStatus` call in order; `pendingEncodings` holds batches drained but
still inside `await blobToBase64`; `sentBatches` records each batch
actually delivered by `socket.send` on an open socket; `sinkBatches`
records each prediction list forwarded to the presentation sink;
`arrivals` records every chunk the capture loop pushed; `inFlight` counts
batches sent and not yet answered; `connectAttempts` counts `connect()`
calls; `closeCalls` counts `socket.close()` calls. -/
structure SessionState where
  socket : Option ReadyState
  socketGen : Nat
  recorder : Bool
  audioBuffer : List Blob
  mount : Bool
  numReconnects : Nat
  serverReady : Bool
  status : String
  statusLog : List String
  pendingEncodings : List PendingSend
  sentBatches : List (List Blob)
  sinkBatches : List (List AudioPrediction)
  arrivals : List Blob
  inFlight : Nat
  connectAttempts : Nat
  closeCalls : Nat
deriving DecidableEq, Repr

/-- Fixed reconnection ceiling (`const maxReconnects = 3`). -/
def maxReconnects : Nat := 3

/-- Status message emitted when the reconnect ceiling is exceeded
(the template literal in `socketOnError`). -/
def reauthStatus (environment : String) : String :=
  "Failed to connect to the Hume API (" ++ environment ++
  ").\n      Please log out and verify that your API key is correct."

/-- Effect of a `setStatus(m)` call: updates the status and records the
emission in the ghost log. -/
def setStatus (m : String) (s : SessionState) : SessionState :=
  { s with status := m, statusLog := s.statusLog ++ [m] }

/-- Synchronous prefix of `sendRequest` (everything before the
`await blobToBase64`): with no socket it returns doing nothing; on an open
socket it captures the combined blob, clears `serverReadyRef`, and empties
`audioBufferRef`; on a non-open socket it calls `socket.close()`. The
encoding's completion (`socket.send`) is modelled by `sendFinish`. -/
def sendRequest (s : SessionState) : SessionState :=
  match s.socket with
  | none => s
  | some readyState =>
    if readyState = ReadyState.OPEN then
      { s with serverReady := false,
               audioBuffer := [],
               pendingEncodings :=
                 s.pendingEncodings ++ [⟨s.socketGen, s.audioBuffer⟩] }
    else
      { s with socket := some ReadyState.CLOSING,
               closeCalls := s.closeCalls + 1 }

/-- Completion of the oldest pending `blobToBase64` encoding, followed by
`socket.send(response)` on the socket captured before the `await`. The
platform delivers the frame only if that captured socket is still the
current one (`gen` matches) and still open; a send on a closing, closed or
superseded socket is discarded by the WebSocket layer. -/
def sendFinish (s : SessionState) : SessionState :=
  match s.pendingEncodings with
  | [] => s
  | p :: rest =>
    if s.socket = some ReadyState.OPEN ∧ p.gen = s.socketGen then
      { s with pendingEncodings := rest,
               sentBatches := s.sentBatches ++ [p.chunks],
               inFlight := s.inFlight + 1 }
    else
      { s with pendingEncodings := rest }

/-- One iteration of the capture loop body in `socketOnOpen`: the
completed `record` call's blob is pushed onto `audioBufferRef`, and if
`serverReadyRef` is set, `sendRequest` runs (its synchronous prefix). -/
def chunkArrival (s : SessionState) (c : Blob) : SessionState :=
  let s := { s with audioBuffer := s.audioBuffer ++ [c],
                    arrivals := s.arrivals ++ [c] }
  if s.serverReady then sendRequest s else s

/-- The `connect()` function: sets `serverReadyRef` to `true`, emits the
connecting status, and installs a brand-new `WebSocket` (a fresh
generation, initially `CONNECTING`). -/
def connect (s : SessionState) : SessionState :=
  let s := { s with serverReady := true }
  let s := setStatus "Connecting to server..." s
  { s with socket := some ReadyState.CONNECTING,
           socketGen := s.socketGen + 1,
           connectAttempts := s.connectAttempts + 1 }

/-- Teardown (`stopEverything`): clears `mountRef`, then closes and nulls
the socket if one exists, then stops and nulls the recorder if one exists.
Both branches null-check, so the function is total (never throws) even on
a never-initialized session. -/
def stopEverything (s : SessionState) : SessionState :=
  let s := { s with mount := false }
  let s :=
    match s.socket with
    | some _ => { s with socket := none, closeCalls := s.closeCalls + 1 }
    | none => s
  if s.recorder then { s with recorder := false } else s

/-- Successful open transition: the socket's ready state becomes `OPEN`
and the `socketOnOpen` handler runs its pre-loop part (clear the status,
create the recorder). The capture loop it then enters is modelled by
`chunkArrival` events. Note the handler never touches `numReconnects`. -/
def socketOnOpen (s : SessionState) : SessionState :=
  let s := { s with socket := some ReadyState.OPEN }
  let s := setStatus "" s
  { s with recorder := true }

/-- The `socketOnClose` handler: while `mountRef` is still set it emits
the reconnecting status and calls `connect()` again; after teardown it
does nothing. -/
def socketOnClose (s : SessionState) : SessionState :=
  if s.mount then connect (setStatus "Reconnecting" s) else s

/-- The `socketOnError` handler: if `numReconnects` already exceeds
`maxReconnects` it emits the re-authentication status and runs
`stopEverything`; otherwise it merely increments `numReconnects`. The
comparison happens before the increment. -/
def socketOnError (cfg : Config) (s : SessionState) : SessionState :=
  if s.numReconnects > maxReconnects then
    stopEverything (setStatus (reauthStatus cfg.environment) s)
  else
    { s with numReconnects := s.numReconnects + 1 }

/-- Tail of `socketOnMessage` (lines checking `audioBufferRef` at the
end of the handler): if chunks queued up while the answered batch was in
flight, immediately drain them with `sendRequest`; otherwise flip
`serverReadyRef` back to true. -/
def queueFlush (s : SessionState) : SessionState :=
  if s.audioBuffer.length > 0 then sendRequest s
  else { s with serverReady := true }

/-- Body of `socketOnMessage` after a successful parse (the ghost
`inFlight` counter is decremented first: the arrived message answers the
oldest in-flight batch). A truthy top-level `error` (present and
non-empty) sets the status to the error text and tears the session down
before any prediction is forwarded. Otherwise predictions are forwarded to
the sink, an empty prediction list sets an advisory status, and then
either the non-empty queue is drained or readiness returns
(`queueFlush`). -/
def handlePredictions (cfg : Config) (s : SessionState) (m : Msg) :
    SessionState :=
  let newPredictions := (m.modelData.bind (fun d => d.predictions)).getD []
  let s := { s with sinkBatches := s.sinkBatches ++ [newPredictions] }
  let s :=
    if newPredictions.length = 0 then
      if cfg.modelName = "burst" then
        setStatus "No vocal bursts detected" s
      else
        setStatus "No speech detected" s
    else s
  queueFlush s

/-- Dispatch on the parsed message's `error` field, mirroring the JS
truthiness test `if (error)`: an absent or empty-string `error` falls
through to the prediction path. -/
def handleParsed (cfg : Config) (s : SessionState) (m : Msg) :
    SessionState :=
  let s := { s with inFlight := s.inFlight - 1 }
  match m.error with
  | some e =>
    if e = "" then handlePredictions cfg s m
    else stopEverything (setStatus e s)
  | none => handlePredictions cfg s m

/-- The `socketOnMessage` handler: it first clears the status, then
parses the payload. The parse sits in no try/catch, so a malformed
payload's exception escapes the handler (`Except.error`), leaving only
the status-clear behind. -/
def socketOnMessage (cfg : Config) (s : SessionState) (data : Inbound) :
    Except Unit SessionState :=
  let s := setStatus "" s
  match data with
  | Inbound.malformed => Except.error ()
  | Inbound.parsed m => Except.ok (handleParsed cfg s m)

/-- State at component mount, before the initial `connect()`:
all refs at their `useRef` initial values. -/
def initialState : SessionState :=
  { socket := none, socketGen := 0, recorder := false, audioBuffer := [],
    mount := true, numReconnects := 0, serverReady := true, status := "",
    statusLog := [], pendingEncodings := [], sentBatches := [],
    sinkBatches := [], arrivals := [], inFlight := 0,
    connectAttempts := 0, closeCalls := 0 }

/-- State right after the first successful open: `connect()` followed by
the open transition. This is the start state for the flow-control
properties. -/
def openState : SessionState := socketOnOpen (connect initialState)

/-- Configuration used by `ProsodyWidgets` (the caller in the repository):
model `prosody`, 500 ms chunks, 5000 ms stream window. -/
def prosodyConfig : Config :=
  { modelName := "prosody", environment := "prod",
    recordingLengthMs := 500, streamWindowLengthMs := 5000 }

/-- Flow-control events on one live connection: the alphabet of chunk
arrivals, encoding completions and server responses. A `response` event
requires a batch to be in flight (the server answers only requests it
received); its effect is the `Except.ok` branch of `socketOnMessage`. -/
inductive FlowStep (cfg : Config) : SessionState → SessionState → Prop
  | chunk (s : SessionState) (c : Blob) : FlowStep cfg s (chunkArrival s c)
  | finish (s : SessionState) : FlowStep cfg s (sendFinish s)
  | response (s : SessionState) (m : Msg) (h : 1 ≤ s.inFlight) :
      FlowStep cfg s (handleParsed cfg (setStatus "" s) m)

/-- Reflexive-transitive closure of `FlowStep`. -/
inductive FlowSteps (cfg : Config) : SessionState → SessionState → Prop
  | refl (s : SessionState) : FlowSteps cfg s s
  | tail (s t u : SessionState) :
      FlowSteps cfg s t → FlowStep cfg t u → FlowSteps cfg s u

/-- Full session events: flow-control events plus malformed messages,
socket close and error events, the open transition (only a `CONNECTING`
socket can fire `onopen`) and a stop request. Responses are not gated
here, making the traces a superset of the reachable ones. -/
inductive SessStep (cfg : Config) : SessionState → SessionState → Prop
  | chunk (s : SessionState) (c : Blob) : SessStep cfg s (chunkArrival s c)
  | finish (s : SessionState) : SessStep cfg s (sendFinish s)
  | response (s : SessionState) (m : Msg) :
      SessStep cfg s (handleParsed cfg (setStatus "" s) m)
  | malformedMsg (s : SessionState) : SessStep cfg s (setStatus "" s)
  | close (s : SessionState) : SessStep cfg s (socketOnClose s)
  | error (s : SessionState) : SessStep cfg s (socketOnError cfg s)
  | opened (s : SessionState) (h : s.socket = some ReadyState.CONNECTING) :
      SessStep cfg s (socketOnOpen s)
  | stop (s : SessionState) : SessStep cfg s (stopEverything s)

/-- Reflexive-transitive closure of `SessStep`. -/
inductive SessSteps (cfg : Config) : SessionState → SessionState → Prop
  | refl (s : SessionState) : SessSteps cfg s s
  | tail (s t u : SessionState) :
      SessSteps cfg s t → SessStep cfg t u → SessSteps cfg s u

/-- Flow-control invariant: at most one batch is either in flight or
drained-and-encoding, and a set readiness flag means neither. -/
def FlowInv (s : SessionState) : Prop :=
  s.inFlight + s.pendingEncodings.length ≤ 1 ∧
  (s.serverReady = true → s.inFlight = 0 ∧ s.pendingEncodings = [])

/-- Chunks currently accounted for by the controller: delivered batches,
batches under encoding, and the queue, in that order. -/
def chunkInventory (s : SessionState) : List Blob :=
  s.sentBatches.flatten ++
    (s.pendingEncodings.map PendingSend.chunks).flatten ++ s.audioBuffer

/-- Torn-down states: teardown has run, the mount flag is cleared and the
socket ref is null. -/
def TornDown (s : SessionState) : Prop :=
  s.mount = false ∧ s.socket = none

theorem stopEverything_mount (s : SessionState) :
    (stopEverything s).mount = false := by
  unfold stopEverything
  cases s.socket <;> cases hr : s.recorder <;> simp [hr]

theorem stopEverything_socket (s : SessionState) :
    (stopEverything s).socket = none := by
  unfold stopEverything
  cases s.socket <;> cases hr : s.recorder <;> simp [hr]

theorem stopEverything_recorder (s : SessionState) :
    (stopEverything s).recorder = false := by
  unfold stopEverything
  cases s.socket <;> cases hr : s.recorder <;> simp [hr]

theorem stopEverything_sentBatches (s : SessionState) :
    (stopEverything s).sentBatches = s.sentBatches := by
  unfold stopEverything
  cases s.socket <;> cases hr : s.recorder <;> simp [hr]

theorem stopEverything_connectAttempts (s : SessionState) :
    (stopEverything s).connectAttempts = s.connectAttempts := by
  unfold stopEverything
  cases s.socket <;> cases hr : s.recorder <;> simp [hr]

theorem stopEverything_status (s : SessionState) :
    (stopEverything s).status = s.status := by
  unfold stopEverything
  cases s.socket <;> cases hr : s.recorder <;> simp [hr]

theorem stopEverything_statusLog (s : SessionState) :
    (stopEverything s).statusLog = s.statusLog := by
  unfold stopEverything
  cases s.socket <;> cases hr : s.recorder <;> simp [hr]

theorem stopEverything_sinkBatches (s : SessionState) :
    (stopEverything s).sinkBatches = s.sinkBatches := by
  unfold stopEverything
  cases s.socket <;> cases hr : s.recorder <;> simp [hr]

theorem stopEverything_serverReady (s : SessionState) :
    (stopEverything s).serverReady = s.serverReady := by
  unfold stopEverything
  cases s.socket <;> cases hr : s.recorder <;> simp [hr]

theorem stopEverything_inFlight (s : SessionState) :
    (stopEverything s).inFlight = s.inFlight := by
  unfold stopEverything
  cases s.socket <;> cases hr : s.recorder <;> simp [hr]

theorem stopEverything_pendingEncodings (s : SessionState) :
    (stopEverything s).pendingEncodings = s.pendingEncodings := by
  unfold stopEverything
  cases s.socket <;> cases hr : s.recorder <;> simp [hr]

theorem stopEverything_audioBuffer (s : SessionState) :
    (stopEverything s).audioBuffer = s.audioBuffer := by
  unfold stopEverything
  cases s.socket <;> cases hr : s.recorder <;> simp [hr]

theorem stopEverything_arrivals (s : SessionState) :
    (stopEverything s).arrivals = s.arrivals := by
  unfold stopEverything
  cases s.socket <;> cases hr : s.recorder <;> simp [hr]

theorem stopEverything_tornDown (s : SessionState) :
    TornDown (stopEverything s) :=
  ⟨stopEverything_mount s, stopEverything_socket s⟩

/-- On an already-torn-down state, teardown is the identity. -/
theorem stopEverything_fixed (s : SessionState) (hm : s.mount = false)
    (hs : s.socket = none) (hr : s.recorder = false) :
    stopEverything s = s := by
  cases s
  simp_all [stopEverything]

/-- Teardown is absorbing: once the mount flag is down and the socket ref
is null, every session event keeps it that way, delivers no batch, and
schedules no connect attempt. -/
theorem tornDown_step (cfg : Config) {s t : SessionState} (h : TornDown s)
    (st : SessStep cfg s t) :
    TornDown t ∧ t.sentBatches = s.sentBatches ∧
      t.connectAttempts = s.connectAttempts := by
  obtain ⟨hm, hs⟩ := h
  cases st with
  | chunk c =>
    simp only [chunkArrival, sendRequest, hs]
    split <;> simp [TornDown, hs, hm]
  | finish =>
    simp only [sendFinish]
    cases hp : s.pendingEncodings <;> simp [TornDown, hs, hm]
  | response m =>
    simp only [handleParsed, setStatus]
    cases herr : m.error with
    | none =>
      simp only [handlePredictions, queueFlush, sendRequest, hs]
      split_ifs <;> simp [TornDown, hs, hm, setStatus]
    | some e =>
      by_cases he : e = ""
      · simp only [he, if_true, handlePredictions, queueFlush, sendRequest,
          hs]
        split_ifs <;> simp [TornDown, hs, hm, setStatus]
      · simp only [he, if_false]
        refine ⟨stopEverything_tornDown _, ?_, ?_⟩
        · simp [stopEverything_sentBatches, setStatus]
        · simp [stopEverything_connectAttempts, setStatus]
  | malformedMsg =>
    simp [TornDown, setStatus, hs, hm]
  | close =>
    simp [socketOnClose, TornDown, hm, hs]
  | error =>
    simp only [socketOnError]
    split
    · refine ⟨stopEverything_tornDown _, ?_, ?_⟩
      · simp [stopEverything_sentBatches, setStatus]
      · simp [stopEverything_connectAttempts, setStatus]
    · simp [TornDown, hs, hm]
  | opened hsock =>
    rw [hs] at hsock
    exact absurd hsock (by simp)
  | stop =>
    refine ⟨stopEverything_tornDown _, ?_, ?_⟩
    · simp [stopEverything_sentBatches]
    · simp [stopEverything_connectAttempts]

/-- Closure of `tornDown_step` over whole traces. -/
theorem tornDown_steps (cfg : Config) {s t : SessionState} (h : TornDown s)
    (tr : SessSteps cfg s t) :
    TornDown t ∧ t.sentBatches = s.sentBatches ∧
      t.connectAttempts = s.connectAttempts := by
  induction tr with
  | refl => exact ⟨h, rfl, rfl⟩
  | tail t u htr hstep ih =>
    obtain ⟨ih1, ih2, ih3⟩ := ih
    obtain ⟨j1, j2, j3⟩ := tornDown_step cfg ih1 hstep
    exact ⟨j1, j2.trans ih2, j3.trans ih3⟩

/-- Reduction of `handleParsed` on a message with a truthy (non-empty)
top-level `error`: set the status to the error text, then tear down. -/
theorem handleParsed_fatal (cfg : Config) (s : SessionState)
    (md : Option ModelData) (e : String) (he : e ≠ "") :
    handleParsed cfg s ⟨md, some e⟩ =
      stopEverything (setStatus e { s with inFlight := s.inFlight - 1 }) := by
  simp [handleParsed, he]

/-- With nothing in flight and nothing encoding, `sendRequest` leaves the
flow invariant intact whatever the socket looks like. -/
theorem flowInv_sendRequest (s : SessionState) (hf : s.inFlight = 0)
    (hp : s.pendingEncodings = []) : FlowInv (sendRequest s) := by
  unfold sendRequest
  cases hsock : s.socket with
  | none => exact ⟨by simp [hf, hp], fun _ => ⟨hf, hp⟩⟩
  | some rs =>
    by_cases hrs : rs = ReadyState.OPEN <;> simp [hrs, FlowInv, hf, hp]

/-- With nothing in flight and nothing encoding, the end-of-handler
flush leaves the flow invariant intact. -/
theorem flowInv_queueFlush (s : SessionState) (hf : s.inFlight = 0)
    (hp : s.pendingEncodings = []) : FlowInv (queueFlush s) := by
  unfold queueFlush
  split
  · exact flowInv_sendRequest s hf hp
  · exact ⟨by simp [hf, hp], fun _ => by simp [hf, hp]⟩

/-- With nothing in flight and nothing encoding, the prediction path of
the message handler leaves the flow invariant intact. -/
theorem flowInv_handlePredictions (cfg : Config) (s : SessionState)
    (m : Msg) (hf : s.inFlight = 0) (hp : s.pendingEncodings = []) :
    FlowInv (handlePredictions cfg s m) := by
  unfold handlePredictions
  apply flowInv_queueFlush <;> split_ifs <;> simp [setStatus, hf, hp]

/-- Preservation of the flow invariant by every flow-control event. -/
theorem flowInv_step (cfg : Config) {s t : SessionState} (hI : FlowInv s)
    (st : FlowStep cfg s t) : FlowInv t := by
  obtain ⟨hle, hready⟩ := hI
  cases st with
  | chunk c =>
    by_cases hr : s.serverReady = true
    · obtain ⟨hf0, hp0⟩ := hready hr
      have hred : chunkArrival s c = sendRequest
          { s with audioBuffer := s.audioBuffer ++ [c],
                   arrivals := s.arrivals ++ [c] } := by
        simp [chunkArrival, hr]
      rw [hred]
      apply flowInv_sendRequest <;> simp [hf0, hp0]
    · have hred : chunkArrival s c =
          { s with audioBuffer := s.audioBuffer ++ [c],
                   arrivals := s.arrivals ++ [c] } := by
        simp [chunkArrival, hr]
      rw [hred]
      exact ⟨by simpa using hle, fun hcon => absurd hcon hr⟩
  | finish =>
    cases hp : s.pendingEncodings with
    | nil =>
      have hred : sendFinish s = s := by simp [sendFinish, hp]
      rw [hred]
      exact ⟨hle, hready⟩
    | cons p rest =>
      rw [hp] at hle
      simp only [List.length_cons] at hle
      have hf0 : s.inFlight = 0 := by omega
      have hr0 : rest = [] := List.length_eq_zero.mp (by omega)
      have hrf : s.serverReady = false := by
        cases hsr : s.serverReady
        · rfl
        · exact absurd ((hready hsr).2) (by simp [hp])
      simp only [sendFinish, hp]
      split
      · exact ⟨by simp [hf0, hr0], fun hcon => by simp [hrf] at hcon⟩
      · exact ⟨by simp [hf0, hr0], fun hcon => by simp [hrf] at hcon⟩
  | response m hIF =>
    have hf1 : s.inFlight = 1 := by omega
    have hp0 : s.pendingEncodings = [] := List.length_eq_zero.mp (by omega)
    have hrf : s.serverReady = false := by
      cases hsr : s.serverReady
      · rfl
      · exact absurd (hready hsr).1 (by omega)
    cases herr : m.error with
    | none =>
      have hred : handleParsed cfg (setStatus "" s) m =
          handlePredictions cfg
            { setStatus "" s with
                inFlight := (setStatus "" s).inFlight - 1 } m := by
        simp [handleParsed, herr]
      rw [hred]
      apply flowInv_handlePredictions <;> simp [setStatus, hf1, hp0]
    | some e =>
      by_cases he : e = ""
      · have hred : handleParsed cfg (setStatus "" s) m =
            handlePredictions cfg
              { setStatus "" s with
                  inFlight := (setStatus "" s).inFlight - 1 } m := by
          simp [handleParsed, herr, he]
        rw [hred]
        apply flowInv_handlePredictions <;> simp [setStatus, hf1, hp0]
      · have hmeq : m = ⟨m.modelData, some e⟩ := by
          cases m
          simp_all
        rw [hmeq, handleParsed_fatal cfg (setStatus "" s) m.modelData e he]
        constructor
        · rw [stopEverything_inFlight, stopEverything_pendingEncodings]
          simp [setStatus, hf1, hp0]
        · rw [stopEverything_serverReady]
          simp [setStatus, hrf]

/-- A drain (`sendRequest`) only moves chunks between regions: the
inventory of delivered, encoding and queued chunks is unchanged. -/
theorem inventory_sendRequest (u : SessionState) :
    chunkInventory (sendRequest u) = chunkInventory u := by
  unfold sendRequest
  cases hsock : u.socket with
  | none => rfl
  | some rs =>
    by_cases hrs : rs = ReadyState.OPEN <;>
      simp [hrs, chunkInventory, List.append_assoc]

/-- A drain records no new arrival. -/
theorem arrivals_sendRequest (u : SessionState) :
    (sendRequest u).arrivals = u.arrivals := by
  unfold sendRequest
  cases hsock : u.socket with
  | none => rfl
  | some rs => by_cases hrs : rs = ReadyState.OPEN <;> simp [hrs]

/-- The end-of-handler flush preserves the chunk inventory. -/
theorem inventory_queueFlush (u : SessionState) :
    chunkInventory (queueFlush u) = chunkInventory u := by
  unfold queueFlush
  split
  · exact inventory_sendRequest u
  · simp [chunkInventory]

/-- The end-of-handler flush records no new arrival. -/
theorem arrivals_queueFlush (u : SessionState) :
    (queueFlush u).arrivals = u.arrivals := by
  unfold queueFlush
  split
  · exact arrivals_sendRequest u
  · rfl

/-- The prediction path preserves the chunk inventory and the arrivals
log. -/
theorem inventory_handlePredictions (cfg : Config) (u : SessionState)
    (m : Msg) :
    chunkInventory (handlePredictions cfg u m) = chunkInventory u ∧
    (handlePredictions cfg u m).arrivals = u.arrivals := by
  unfold handlePredictions
  constructor
  · rw [inventory_queueFlush]
    split_ifs <;> simp [chunkInventory, setStatus]
  · rw [arrivals_queueFlush]
    split_ifs <;> simp [setStatus]

/-- Preservation of the no-duplication bound by every flow-control event:
the inventory of chunks (delivered, encoding, queued) always stays an
order-preserving selection of the arrivals log. -/
theorem inventory_step (cfg : Config) {s t : SessionState}
    (h : (chunkInventory s).Sublist s.arrivals) (st : FlowStep cfg s t) :
    (chunkInventory t).Sublist t.arrivals := by
  cases st with
  | chunk c =>
    have key : chunkInventory (chunkArrival s c) = chunkInventory s ++ [c] ∧
        (chunkArrival s c).arrivals = s.arrivals ++ [c] := by
      unfold chunkArrival
      dsimp only
      by_cases hr : s.serverReady = true
      · rw [if_pos hr, inventory_sendRequest, arrivals_sendRequest]
        exact ⟨by simp [chunkInventory, List.append_assoc], rfl⟩
      · rw [if_neg hr]
        exact ⟨by simp [chunkInventory, List.append_assoc], rfl⟩
    rw [key.1, key.2]
    exact h.append (List.Sublist.refl [c])
  | finish =>
    cases hp : s.pendingEncodings with
    | nil =>
      have hred : sendFinish s = s := by simp [sendFinish, hp]
      rw [hred]
      exact h
    | cons p rest =>
      have hinvs : chunkInventory s = s.sentBatches.flatten ++
          (p.chunks ++ ((rest.map PendingSend.chunks).flatten ++
            s.audioBuffer)) := by
        simp [chunkInventory, hp, List.append_assoc]
      simp only [sendFinish, hp]
      split
      · have e : chunkInventory
            { s with pendingEncodings := rest,
                     sentBatches := s.sentBatches ++ [p.chunks],
                     inFlight := s.inFlight + 1 } = chunkInventory s := by
          simp [chunkInventory, hp, List.append_assoc]
        rw [e]
        exact h
      · have e : chunkInventory { s with pendingEncodings := rest } =
            s.sentBatches.flatten ++
              ((rest.map PendingSend.chunks).flatten ++ s.audioBuffer) := by
          simp [chunkInventory, List.append_assoc]
        rw [e]
        refine List.Sublist.trans ?_ h
        rw [hinvs]
        exact (List.Sublist.refl _).append
          (List.sublist_append_right p.chunks _)
  | response m hIF =>
    cases herr : m.error with
    | none =>
      have hred : handleParsed cfg (setStatus "" s) m =
          handlePredictions cfg
            { setStatus "" s with
                inFlight := (setStatus "" s).inFlight - 1 } m := by
        simp [handleParsed, herr]
      rw [hred]
      obtain ⟨e1, e2⟩ := inventory_handlePredictions cfg
        { setStatus "" s with inFlight := (setStatus "" s).inFlight - 1 } m
      rw [e1, e2]
      have e3 : chunkInventory
          { setStatus "" s with
              inFlight := (setStatus "" s).inFlight - 1 } =
          chunkInventory s := by
        simp [chunkInventory, setStatus]
      rw [e3]
      exact h
    | some e =>
      by_cases he : e = ""
      · have hred : handleParsed cfg (setStatus "" s) m =
            handlePredictions cfg
              { setStatus "" s with
                  inFlight := (setStatus "" s).inFlight - 1 } m := by
          simp [handleParsed, herr, he]
        rw [hred]
        obtain ⟨e1, e2⟩ := inventory_handlePredictions cfg
          { setStatus "" s with
              inFlight := (setStatus "" s).inFlight - 1 } m
        rw [e1, e2]
        have e3 : chunkInventory
            { setStatus "" s with
                inFlight := (setStatus "" s).inFlight - 1 } =
            chunkInventory s := by
          simp [chunkInventory, setStatus]
        rw [e3]
        exact h
      · have hmeq : m = ⟨m.modelData, some e⟩ := by
          cases m
          simp_all
        rw [hmeq, handleParsed_fatal cfg (setStatus "" s) m.modelData e he]
        have e1 : chunkInventory (stopEverything (setStatus e
            { setStatus "" s with
                inFlight := (setStatus "" s).inFlight - 1 })) =
            chunkInventory s := by
          unfold chunkInventory
          rw [stopEverything_sentBatches, stopEverything_pendingEncodings,
            stopEverything_audioBuffer]
          simp [setStatus]
        have e2 : (stopEverything (setStatus e
            { setStatus "" s with
                inFlight := (setStatus "" s).inFlight - 1 })).arrivals =
            s.arrivals := by
          rw [stopEverything_arrivals]
          rfl
        rw [e1, e2]
        exact h

/-- C10: every chunk appended to the queue appears in at most one
outbound payload. Along every flow trace, the delivered batches, the
batches still encoding, and the queue together form an order-preserving
selection of the arrivals log (the queue is drained and the readiness flag
cleared synchronously before the asynchronous encoding, so chunks
appended during encoding or while a batch is in flight stay queued for
the next payload and are never re-sent); in particular no chunk
occurrence is ever delivered twice. -/
theorem C10_no_chunk_duplication (cfg : Config) (t : SessionState)
    (h : FlowSteps cfg openState t) :
    (chunkInventory t).Sublist t.arrivals ∧
    ∀ b : Blob, t.sentBatches.flatten.count b ≤ t.arrivals.count b := by
  have hsub : (chunkInventory t).Sublist t.arrivals := by
    induction h with
    | refl => exact List.nil_sublist _
    | tail t u htr hstep ih => exact inventory_step cfg ih hstep
  refine ⟨hsub, fun b => ?_⟩
  have h1 : t.sentBatches.flatten.Sublist (chunkInventory t) := by
    unfold chunkInventory
    exact (List.sublist_append_left _ _).trans (List.sublist_append_left _ _)
  exact (h1.trans hsub).count_le b

/-- Witness for C10 at the initial open state. -/
theorem C10_witness :
    (chunkInventory openState).Sublist openState.arrivals ∧
    ∀ b : Blob, openState.sentBatches.flatten.count b ≤
      openState.arrivals.count b :=
  C10_no_chunk_duplication prosodyConfig openState (FlowSteps.refl openState)

/-- When `sendRequest` starts a new pending encoding, it takes the whole
queue, empties it, clears the readiness flag synchronously, and records
no new arrival. -/
theorem sendRequest_pend_extend (u : SessionState) (p : PendingSend)
    (hp : (sendRequest u).pendingEncodings = u.pendingEncodings ++ [p]) :
    (sendRequest u).audioBuffer = [] ∧
    (sendRequest u).serverReady = false ∧
    (sendRequest u).arrivals = u.arrivals ∧
    p = ⟨u.socketGen, u.audioBuffer⟩ := by
  unfold sendRequest at hp ⊢
  cases hsock : u.socket with
  | none =>
    rw [hsock] at hp
    simp at hp
  | some rs =>
    rw [hsock] at hp
    dsimp only at hp ⊢
    by_cases hrs : rs = ReadyState.OPEN
    · rw [if_pos hrs] at hp ⊢
      have hpp : p = ⟨u.socketGen, u.audioBuffer⟩ := by
        have := hp
        simp at this
        exact this.symm
      exact ⟨rfl, rfl, rfl, hpp⟩
    · rw [if_neg hrs] at hp
      simp at hp

/-- Same statement for the end-of-handler flush. -/
theorem queueFlush_pend_extend (u : SessionState) (p : PendingSend)
    (hp : (queueFlush u).pendingEncodings = u.pendingEncodings ++ [p]) :
    (queueFlush u).audioBuffer = [] ∧
    (queueFlush u).serverReady = false ∧
    (queueFlush u).arrivals = u.arrivals ∧
    p = ⟨u.socketGen, u.audioBuffer⟩ := by
  unfold queueFlush at hp ⊢
  by_cases hb : u.audioBuffer.length > 0
  · rw [if_pos hb] at hp ⊢
    exact sendRequest_pend_extend u p hp
  · rw [if_neg hb] at hp
    simp at hp

/-- C2: whenever a flow-control event starts a new outbound batch, that
batch is the entire queue at that moment — the queue is left empty and
the readiness flag cleared, so no per-chunk request is ever issued while
the queue is non-empty — and the combined payload is exactly the
concatenation of the queued chunks in arrival order (the queue extended
with the just-arrived chunk when the send is triggered by a chunk
arrival, the queue as accumulated during the in-flight batch when the
send is triggered by a response). -/
theorem C2_send_drains_whole_queue (cfg : Config) (s t : SessionState)
    (st : FlowStep cfg s t) (p : PendingSend)
    (hp : t.pendingEncodings = s.pendingEncodings ++ [p]) :
    t.audioBuffer = [] ∧ t.serverReady = false ∧
    ((∃ c, t.arrivals = s.arrivals ++ [c] ∧
        p.chunks = s.audioBuffer ++ [c] ∧
        p.data = combinedBlob (s.audioBuffer ++ [c])) ∨
     (t.arrivals = s.arrivals ∧ p.chunks = s.audioBuffer ∧
        p.data = combinedBlob s.audioBuffer)) := by
  cases st with
  | chunk c =>
    unfold chunkArrival at hp ⊢
    dsimp only at hp ⊢
    by_cases hr : s.serverReady = true
    · rw [if_pos hr] at hp ⊢
      obtain ⟨g1, g2, g3, g4⟩ := sendRequest_pend_extend _ p hp
      refine ⟨g1, g2, Or.inl ⟨c, ?_, ?_, ?_⟩⟩
      · rw [g3]
      · rw [g4]
      · rw [g4]
        rfl
    · rw [if_neg hr] at hp
      simp at hp
  | finish =>
    cases hq : s.pendingEncodings with
    | nil =>
      have hred : sendFinish s = s := by simp [sendFinish, hq]
      rw [hred, hq] at hp
      simp at hp
    | cons q rest =>
      simp only [sendFinish, hq] at hp
      split at hp <;>
      · have hlen := congrArg List.length hp
        simp only [List.length_append, List.length_cons] at hlen
        omega
  | response m hIF =>
    cases herr : m.error with
    | none =>
      have hred : handleParsed cfg (setStatus "" s) m =
          handlePredictions cfg
            { setStatus "" s with
                inFlight := (setStatus "" s).inFlight - 1 } m := by
        simp [handleParsed, herr]
      rw [hred] at hp ⊢
      obtain ⟨u, hq, hu1, hu2, hu3, hu4⟩ :
          ∃ u : SessionState, handlePredictions cfg
              { setStatus "" s with
                  inFlight := (setStatus "" s).inFlight - 1 } m =
              queueFlush u ∧
            u.pendingEncodings = s.pendingEncodings ∧
            u.audioBuffer = s.audioBuffer ∧
            u.arrivals = s.arrivals ∧ u.socketGen = s.socketGen := by
        unfold handlePredictions
        refine ⟨_, rfl, ?_, ?_, ?_, ?_⟩ <;> (split_ifs <;> simp [setStatus])
      rw [hq] at hp ⊢
      rw [← hu1] at hp
      obtain ⟨g1, g2, g3, g4⟩ := queueFlush_pend_extend u p hp
      refine ⟨g1, g2, Or.inr ⟨g3.trans hu3, ?_, ?_⟩⟩
      · rw [g4]
        exact hu2
      · rw [g4]
        show combinedBlob u.audioBuffer = combinedBlob s.audioBuffer
        rw [hu2]
    | some e =>
      by_cases he : e = ""
      · have hred : handleParsed cfg (setStatus "" s) m =
            handlePredictions cfg
              { setStatus "" s with
                  inFlight := (setStatus "" s).inFlight - 1 } m := by
          simp [handleParsed, herr, he]
        rw [hred] at hp ⊢
        obtain ⟨u, hq, hu1, hu2, hu3, hu4⟩ :
            ∃ u : SessionState, handlePredictions cfg
                { setStatus "" s with
                    inFlight := (setStatus "" s).inFlight - 1 } m =
                queueFlush u ∧
              u.pendingEncodings = s.pendingEncodings ∧
              u.audioBuffer = s.audioBuffer ∧
              u.arrivals = s.arrivals ∧ u.socketGen = s.socketGen := by
          unfold handlePredictions
          refine ⟨_, rfl, ?_, ?_, ?_, ?_⟩ <;> (split_ifs <;> simp [setStatus])
        rw [hq] at hp ⊢
        rw [← hu1] at hp
        obtain ⟨g1, g2, g3, g4⟩ := queueFlush_pend_extend u p hp
        refine ⟨g1, g2, Or.inr ⟨g3.trans hu3, ?_, ?_⟩⟩
        · rw [g4]
          exact hu2
        · rw [g4]
          show combinedBlob u.audioBuffer = combinedBlob s.audioBuffer
          rw [hu2]
      · have hmeq : m = ⟨m.modelData, some e⟩ := by
          cases m
          simp_all
        rw [hmeq, handleParsed_fatal cfg (setStatus "" s) m.modelData e he]
          at hp
        rw [stopEverything_pendingEncodings] at hp
        simp [setStatus] at hp

/-- Witness for C2: a concrete chunk arrival on the ready open state
drains the whole (one-chunk) queue into one batch. -/
theorem C2_witness :
    (chunkArrival openState [1, 2]).audioBuffer = [] ∧
    (chunkArrival openState [1, 2]).serverReady = false ∧
    ((∃ c, (chunkArrival openState [1, 2]).arrivals =
          openState.arrivals ++ [c] ∧
        (⟨1, [[1, 2]]⟩ : PendingSend).chunks =
          openState.audioBuffer ++ [c] ∧
        (⟨1, [[1, 2]]⟩ : PendingSend).data =
          combinedBlob (openState.audioBuffer ++ [c])) ∨
     ((chunkArrival openState [1, 2]).arrivals = openState.arrivals ∧
        (⟨1, [[1, 2]]⟩ : PendingSend).chunks = openState.audioBuffer ∧
        (⟨1, [[1, 2]]⟩ : PendingSend).data =
          combinedBlob openState.audioBuffer)) :=
  C2_send_drains_whole_queue prosodyConfig openState
    (chunkArrival openState [1, 2]) (FlowStep.chunk openState [1, 2])
    ⟨1, [[1, 2]]⟩ (by decide)

/-- C1: for every sequence of chunk arrivals, encoding completions and
server responses on a live connection, at most one audio batch is in
flight (sent but unacknowledged) at any time: sends are issued only when
the readiness flag is true (or directly triggered while processing a
response), issuing a send clears the flag, and the flag only returns to
true when a response is processed with an empty queue. -/
theorem C1_at_most_one_in_flight (cfg : Config) (t : SessionState)
    (h : FlowSteps cfg openState t) : t.inFlight ≤ 1 := by
  have hinv : FlowInv t := by
    induction h with
    | refl => exact ⟨by decide, by decide⟩
    | tail t u htr hstep ih => exact flowInv_step cfg ih hstep
  exact le_trans (Nat.le_add_right _ _) hinv.1

/-- Witness for C1 at the initial open state. -/
theorem C1_witness : openState.inFlight ≤ 1 :=
  C1_at_most_one_in_flight prosodyConfig openState (FlowSteps.refl openState)

/-- C9: teardown (`stopEverything`) is idempotent — a second call, on any
state including one whose socket or recorder was never initialized, leaves
the state exactly as after the first call (and, being a total function of
the null-checked branches, never throws) — it clears the mount flag (the
do-not-reconnect flag), and a close event arriving after teardown is a
no-op: no reconnect attempt is scheduled. -/
theorem C9_teardown_idempotent_no_reconnect (s : SessionState) :
    stopEverything (stopEverything s) = stopEverything s ∧
    (stopEverything s).mount = false ∧
    socketOnClose (stopEverything s) = stopEverything s := by
  refine ⟨?_, stopEverything_mount s, ?_⟩
  · exact stopEverything_fixed _ (stopEverything_mount s)
      (stopEverything_socket s) (stopEverything_recorder s)
  · simp [socketOnClose, stopEverything_mount]

/-- C7 counterexample: with a null socket ref (session never connected, or
already torn down) and a chunk queued, `sendRequest` returns with the state
completely unchanged: the send is silently dropped and no close action of
any kind is taken, contradicting the claim that a send attempted while not
open is never silently dropped without closing the session. -/
theorem C7_counterexample :
    sendRequest { initialState with audioBuffer := [[1]] } =
      { initialState with audioBuffer := [[1]] } ∧
    ({ initialState with audioBuffer := [[1]] } : SessionState).socket =
      none ∧
    (sendRequest { initialState with audioBuffer := [[1]] }).closeCalls =
      0 :=
  ⟨rfl, rfl, rfl⟩

/-- C7 (amended): when a socket object exists and its ready state is not
`OPEN`, `sendRequest` closes that socket (exactly one `close()` call,
ready state moves to `CLOSING`) and sends nothing, draining nothing; when
the socket ref is null the send returns with no action at all. -/
theorem C7_send_not_open_closes (s : SessionState) (rs : ReadyState)
    (hs : s.socket = some rs) (hrs : rs ≠ ReadyState.OPEN) :
    sendRequest s =
      { s with socket := some ReadyState.CLOSING,
               closeCalls := s.closeCalls + 1 } := by
  simp only [sendRequest, hs]
  simp [hrs]

/-- Witness for C7: a concrete send attempt on a `CLOSED` socket closes
the session. -/
theorem C7_witness :
    sendRequest { initialState with socket := some ReadyState.CLOSED } =
      { initialState with socket := some ReadyState.CLOSING,
                          closeCalls := initialState.closeCalls + 1 } :=
  C7_send_not_open_closes
    { initialState with socket := some ReadyState.CLOSED }
    ReadyState.CLOSED rfl (by decide)

/-- C6 counterexample: a malformed inbound payload makes the parse
exception escape `socketOnMessage` (the parse sits in no try/catch): the
handler neither converts the failure to a status message nor triggers
teardown — it aborts. -/
theorem C6_counterexample :
    socketOnMessage prosodyConfig openState Inbound.malformed =
      Except.error () := rfl

/-- C6 (amended): on every malformed inbound payload the parse failure
escapes the message handler as an exception; no error status is recorded
and no teardown is triggered (only the initial `setStatus("")` has run
when the handler dies). -/
theorem C6_malformed_payload_escapes (cfg : Config) (s : SessionState) :
    socketOnMessage cfg s Inbound.malformed = Except.error () := rfl

/-- C8: after a stop request, no captured audio is ever sent to the
server: from the torn-down state every interleaving of further capture
completions, encoding completions, responses, closes and errors delivers
no batch (`sentBatches` never grows — a chunk whose in-flight `record`
call completes after stop is pushed to the dead queue, and `sendRequest`
finds no socket). -/
theorem C8_no_audio_sent_after_stop (cfg : Config) (s t : SessionState)
    (h : SessSteps cfg (stopEverything s) t) :
    t.sentBatches = s.sentBatches := by
  have j := tornDown_steps cfg (stopEverything_tornDown s) h
  rw [j.2.1, stopEverything_sentBatches]

/-- Witness for C8 at a concrete torn-down trace. -/
theorem C8_witness :
    (stopEverything initialState).sentBatches = initialState.sentBatches :=
  C8_no_audio_sent_after_stop prosodyConfig initialState
    (stopEverything initialState) (SessSteps.refl _)

/-- C5 counterexample: the inbound message `{error: "", prosody: {...}}`
has its top-level `error` field present, yet the JS truthiness test
`if (error)` fails on the empty string: processing continues, the
prediction batch is forwarded to the sink, and no teardown runs (the
mount flag stays set and the socket stays open). -/
theorem C5_counterexample :
    (socketOnMessage prosodyConfig openState
        (Inbound.parsed ⟨some ⟨some ["joy"], none⟩, some ""⟩)).toOption.map
        (fun t => (t.mount, t.sinkBatches, t.socket)) =
      some (true, [["joy"]], some ReadyState.OPEN) := by
  decide

/-- C5 (amended): for every inbound message whose top-level `error` field
is present and truthy (non-empty), processing stops before any prediction
is forwarded to the sink, the error text is surfaced as the status, full
teardown runs, and no further batch is ever sent afterwards regardless of
how many chunks are still queued. -/
theorem C5_fatal_error_stops_session (cfg : Config) (s : SessionState)
    (md : Option ModelData) (e : String) (he : e ≠ "") :
    ∃ t, socketOnMessage cfg s (Inbound.parsed ⟨md, some e⟩) =
        Except.ok t ∧
      t.status = e ∧ TornDown t ∧ t.recorder = false ∧
      t.sinkBatches = s.sinkBatches ∧ t.sentBatches = s.sentBatches ∧
      ∀ u, SessSteps cfg t u → u.sentBatches = s.sentBatches := by
  refine ⟨handleParsed cfg (setStatus "" s) ⟨md, some e⟩, rfl, ?_⟩
  rw [handleParsed_fatal cfg (setStatus "" s) md e he]
  refine ⟨?_, stopEverything_tornDown _, stopEverything_recorder _,
    ?_, ?_, ?_⟩
  · rw [stopEverything_status]; rfl
  · rw [stopEverything_sinkBatches]; rfl
  · rw [stopEverything_sentBatches]; rfl
  · intro u hu
    have j := tornDown_steps cfg (stopEverything_tornDown _) hu
    rw [j.2.1, stopEverything_sentBatches]; rfl

/-- C3 counterexample: four consecutive error events from a freshly
started session do not reach the terminal failure state: the guard
`numReconnects > maxReconnects` is checked before the increment, so after
the 4th error the counter is 4, the mount flag is still set, and the only
status ever emitted is the connecting message — the re-authentication
status has not been emitted and no teardown has run. -/
theorem C3_counterexample :
    (socketOnError prosodyConfig (socketOnError prosodyConfig
        (socketOnError prosodyConfig (socketOnError prosodyConfig
          (connect initialState))))).mount = true ∧
    (socketOnError prosodyConfig (socketOnError prosodyConfig
        (socketOnError prosodyConfig (socketOnError prosodyConfig
          (connect initialState))))).numReconnects = 4 ∧
    (socketOnError prosodyConfig (socketOnError prosodyConfig
        (socketOnError prosodyConfig (socketOnError prosodyConfig
          (connect initialState))))).statusLog =
      ["Connecting to server..."] := by
  decide

/-- C3 (amended): a run of 5 consecutive socket error events with no
successful open in between reaches the terminal failure state after the
5th error (the ceiling 3 is checked before the increment, so errors 1–4
only raise the counter to 4 and the 5th finds it above the ceiling): the
re-authentication status message is emitted exactly once, full teardown
runs, and no further connect attempt is ever made. -/
theorem C3_fifth_error_teardown (cfg : Config) (s : SessionState)
    (h0 : s.numReconnects = 0) :
    TornDown (socketOnError cfg (socketOnError cfg (socketOnError cfg
      (socketOnError cfg (socketOnError cfg s))))) ∧
    (socketOnError cfg (socketOnError cfg (socketOnError cfg
      (socketOnError cfg (socketOnError cfg s))))).statusLog =
      s.statusLog ++ [reauthStatus cfg.environment] ∧
    (socketOnError cfg (socketOnError cfg (socketOnError cfg
      (socketOnError cfg (socketOnError cfg s))))).recorder = false ∧
    ∀ t, SessSteps cfg (socketOnError cfg (socketOnError cfg
      (socketOnError cfg (socketOnError cfg (socketOnError cfg s))))) t →
      t.connectAttempts = s.connectAttempts := by
  have h1 : socketOnError cfg s = { s with numReconnects := 1 } := by
    simp [socketOnError, maxReconnects, h0]
  have h2 : socketOnError cfg { s with numReconnects := 1 } =
      { s with numReconnects := 2 } := by
    simp [socketOnError, maxReconnects]
  have h3 : socketOnError cfg { s with numReconnects := 2 } =
      { s with numReconnects := 3 } := by
    simp [socketOnError, maxReconnects]
  have h4 : socketOnError cfg { s with numReconnects := 3 } =
      { s with numReconnects := 4 } := by
    simp [socketOnError, maxReconnects]
  have h5 : socketOnError cfg { s with numReconnects := 4 } =
      stopEverything (setStatus (reauthStatus cfg.environment)
        { s with numReconnects := 4 }) := by
    simp [socketOnError, maxReconnects]
  rw [h1, h2, h3, h4, h5]
  refine ⟨stopEverything_tornDown _, ?_, stopEverything_recorder _, ?_⟩
  · rw [stopEverything_statusLog]; rfl
  · intro t ht
    have j := tornDown_steps cfg (stopEverything_tornDown _) ht
    rw [j.2.2, stopEverything_connectAttempts]
    rfl

/-- Witness for C3 (amended) on the fresh session of the repository's
`ProsodyWidgets` caller. -/
theorem C3_witness :
    TornDown (socketOnError prosodyConfig (socketOnError prosodyConfig
      (socketOnError prosodyConfig (socketOnError prosodyConfig
        (socketOnError prosodyConfig (connect initialState)))))) ∧
    (socketOnError prosodyConfig (socketOnError prosodyConfig
      (socketOnError prosodyConfig (socketOnError prosodyConfig
        (socketOnError prosodyConfig (connect initialState)))))).statusLog =
      (connect initialState).statusLog ++
        [reauthStatus prosodyConfig.environment] ∧
    (socketOnError prosodyConfig (socketOnError prosodyConfig
      (socketOnError prosodyConfig (socketOnError prosodyConfig
        (socketOnError prosodyConfig (connect initialState)))))).recorder =
      false ∧
    ∀ t, SessSteps prosodyConfig (socketOnError prosodyConfig
      (socketOnError prosodyConfig (socketOnError prosodyConfig
        (socketOnError prosodyConfig (socketOnError prosodyConfig
          (connect initialState)))))) t →
      t.connectAttempts = (connect initialState).connectAttempts :=
  C3_fifth_error_teardown prosodyConfig (connect initialState) rfl

/-- C4 counterexample: two error events raise the counter to 2; the
successful open transition that follows leaves it at 2, not 0 — the open
handler never resets `numReconnects`. -/
theorem C4_counterexample :
    (socketOnOpen (socketOnError prosodyConfig (socketOnError prosodyConfig
      (connect initialState)))).numReconnects = 2 ∧
    ¬ (socketOnOpen (socketOnError prosodyConfig
      (socketOnError prosodyConfig
        (connect initialState)))).numReconnects = 0 := by
  decide

/-- C4 (amended): a successful open transition leaves `ReconnectCounter`
unchanged (it is never reset), so errors before an open do count toward
the ceiling applied to errors after it: starting from a zero counter, two
errors followed by a successful open followed by only three more errors
already tear the session down. -/
theorem C4_open_preserves_counter (cfg : Config) (s : SessionState)
    (h0 : s.numReconnects = 0) :
    (socketOnOpen s).numReconnects = s.numReconnects ∧
    TornDown (socketOnError cfg (socketOnError cfg (socketOnError cfg
      (socketOnOpen (socketOnError cfg (socketOnError cfg s)))))) := by
  refine ⟨rfl, ?_⟩
  have h1 : socketOnError cfg s = { s with numReconnects := 1 } := by
    simp [socketOnError, maxReconnects, h0]
  have h2 : socketOnError cfg { s with numReconnects := 1 } =
      { s with numReconnects := 2 } := by
    simp [socketOnError, maxReconnects]
  have ho : socketOnOpen { s with numReconnects := 2 } =
      { s with numReconnects := 2, socket := some ReadyState.OPEN,
               status := "", statusLog := s.statusLog ++ [""],
               recorder := true } := by
    simp [socketOnOpen, setStatus]
  have h3 : socketOnError cfg
      { s with numReconnects := 2, socket := some ReadyState.OPEN,
               status := "", statusLog := s.statusLog ++ [""],
               recorder := true } =
      { s with numReconnects := 3, socket := some ReadyState.OPEN,
               status := "", statusLog := s.statusLog ++ [""],
               recorder := true } := by
    simp [socketOnError, maxReconnects]
  have h4 : socketOnError cfg
      { s with numReconnects := 3, socket := some ReadyState.OPEN,
               status := "", statusLog := s.statusLog ++ [""],
               recorder := true } =
      { s with numReconnects := 4, socket := some ReadyState.OPEN,
               status := "", statusLog := s.statusLog ++ [""],
               recorder := true } := by
    simp [socketOnError, maxReconnects]
  have h5 : socketOnError cfg
      { s with numReconnects := 4, socket := some ReadyState.OPEN,
               status := "", statusLog := s.statusLog ++ [""],
               recorder := true } =
      stopEverything (setStatus (reauthStatus cfg.environment)
        { s with numReconnects := 4, socket := some ReadyState.OPEN,
                 status := "", statusLog := s.statusLog ++ [""],
                 recorder := true }) := by
    simp [socketOnError, maxReconnects]
  rw [h1, h2, ho, h3, h4, h5]
  exact stopEverything_tornDown _

/-- Witness for C4 (amended). -/
theorem C4_witness :
    (socketOnOpen (connect initialState)).numReconnects =
      (connect initialState).numReconnects ∧
    TornDown (socketOnError prosodyConfig (socketOnError prosodyConfig
      (socketOnError prosodyConfig (socketOnOpen (socketOnError
        prosodyConfig (socketOnError prosodyConfig
          (connect initialState))))))) :=
  C4_open_preserves_counter prosodyConfig (connect initialState) rfl

/-- Witness for C5 on a concrete fatal message. -/
theorem C5_witness :
    ∃ t, socketOnMessage prosodyConfig openState
        (Inbound.parsed ⟨some ⟨some ["joy"], none⟩, some "boom"⟩) =
        Except.ok t ∧
      t.status = "boom" ∧ TornDown t ∧ t.recorder = false ∧
      t.sinkBatches = openState.sinkBatches ∧
      t.sentBatches = openState.sentBatches ∧
      ∀ u, SessSteps prosodyConfig t u →
        u.sentBatches = openState.sentBatches :=
  C5_fatal_error_stops_session prosodyConfig openState
    (some ⟨some ["joy"], none⟩) "boom" (by decide)

end SpeechReview
